import Mathlib

/-!
# Verification of the flash-loan front-end component

Shallow embedding of `src/components/section/index.tsx`: the error
sanitizer, the wallet-connect flow, the contract dispatcher
(`executeContracts`), the interval scheduler
(`startIntervalExecution` / `stopExecution` / `runOnce`) and the
`accountsChanged` handler, together with proofs of the specified
properties.

Conventions of the embedding:
* JavaScript strings are modelled as `List Char` (`Str`); the three
  regexes of `sanitizeErrorMessage` all have the shape
  `literal(.*)` with no `g` flag, so a match is the first occurrence
  of the literal followed by the longest run of non-line-terminator
  characters, and `String.prototype.replace` rewrites only that
  matched portion.
* React `useState` state is a record `AppState`; each `setX` call is
  a functional update, and the operations are state transformers
  (the sequential state-machine view taken by the specification).
* The runtime timer table (`setInterval` / `clearInterval`) is
  modelled explicitly as the list `liveTimers` of armed timers, so
  that "at most one active timer" is a statement about the model.
* Outcomes of external asynchronous calls (wallet RPC requests, the
  joined contract calls) are inputs to the transformers; a `throw`
  caught by a `catch` block is modelled by taking the corresponding
  branch.
* Wall-clock timestamps prefixed to log lines by `addLog` are
  abstracted away: `logs` records the message part of each entry.
-/

namespace FlashLoan

/-- JavaScript strings, viewed as character sequences. -/
abbrev Str := List Char

/-- The line terminators of JavaScript regexp `.` (ECMA-262):
newline, carriage return, line separator, paragraph separator. -/
def isLineTerm (c : Char) : Bool :=
  c == '\n' || c == '\r' || c.toNat == 8232 || c.toNat == 8233

/-- Split `s` at the first occurrence of the literal `pat`:
returns `some (pre, post)` with `s = pre ++ pat ++ post` and `pat`
not occurring earlier, or `none` when `pat` does not occur in `s`. -/
def splitFirst (pat : Str) (s : Str) : Option (Str × Str) :=
  if pat.isPrefixOf s then some ([], s.drop pat.length)
  else
    match s with
    | [] => none
    | c :: rest =>
      match splitFirst pat rest with
      | some (pre, post) => some (c :: pre, post)
      | none => none

/-- The capture of a trailing `(.*)` group starting at `s`, and the
rest of the input after it: `.` does not cross line terminators and
the Kleene star is greedy. -/
def lineSpan (s : Str) : Str × Str :=
  (s.takeWhile (fun c => !isLineTerm c), s.dropWhile (fun c => !isLineTerm c))

/-- The test `regex.test(message)` for a regex of shape `literal(.*)`:
true iff the literal occurs somewhere in the message. -/
def regexTest (pat : Str) (s : Str) : Bool :=
  (splitFirst pat s).isSome

/-- The call `message.replace(regex, repl)` for a regex of shape
`literal(.*)` without the `g` flag: only the first match — the
literal plus the remainder of its line — is replaced; `repl` receives
the capture (the `$1` substitution). Text before the match and after
the matched line is preserved. -/
def regexReplace (pat : Str) (repl : Str → Str) (s : Str) : Str :=
  match splitFirst pat s with
  | none => s
  | some (pre, post) => pre ++ repl (lineSpan post).1 ++ (lineSpan post).2

/-- The ordered pattern/substitution table of `sanitizeErrorMessage`
(lines 47–51): each entry is the literal part of the regex and the
replacement template as a function of the capture ("$1",
"Action cancelled", "Transaction failed: $1"). -/
def sanitizePatterns : List (Str × (Str → Str)) :=
  [ ("MetaMask Tx Signature: ".data, fun cap => cap),
    ("ethers-user-denied: ".data, fun _ => "Action cancelled".data),
    ("execution reverted: ".data, fun cap => "Transaction failed: ".data ++ cap) ]

/-- The `for`-loop of `sanitizeErrorMessage` (lines 53–59): first
pattern whose test succeeds wins; if none matches, the fixed
fallback "Transaction failed" is returned. -/
def sanitizeLoop : List (Str × (Str → Str)) → Str → Str
  | [], _ => "Transaction failed".data
  | (pat, repl) :: rest, msg =>
    if regexTest pat msg then regexReplace pat repl msg
    else sanitizeLoop rest msg

/-- The function `sanitizeErrorMessage` (lines 46–60). -/
def sanitizeErrorMessage (message : Str) : Str :=
  sanitizeLoop sanitizePatterns message

/-! ## Component state -/

/-- The two fixed contract addresses (lines 27–28). -/
def longTradeAddress : Str := "0xe76aa7e39763e6fa260e13a24c6d76a8abf4305b".data

def shortTradeAddress : Str := "0x92158730bee648250e0a10e44fef3661b8d2e2b8".data

/-- A contract binding (`new Contract(address, abi, signer)`): the
claims only inspect its presence, but the embedding records the
address it was constructed with. -/
structure ContractBinding where
  address : Str
deriving DecidableEq

/-- The kind of a toast notification emitted via `sonner`. -/
inductive ToastKind where
  | success
  | error
  | info
  | plain
deriving DecidableEq

/-- An armed `setInterval` timer in the runtime timer table:
its handle and the period it was armed with. -/
structure Timer where
  id : Nat
  periodMs : Nat
deriving DecidableEq

/-- The `useState` state of the `Home` component (lines 31–37),
together with the explicit model of the runtime timer table
(`liveTimers`, `nextTimerId`), the emitted toasts, and a counter of
`initiateFlashLoan` invocations on the contract-call boundary. -/
structure AppState where
  longTradeContract : Option ContractBinding
  shortTradeContract : Option ContractBinding
  isConnected : Bool
  isConnecting : Bool
  logs : List Str
  executionInterval : Option Nat
  isRunning : Bool
  liveTimers : List Timer
  nextTimerId : Nat
  toasts : List (ToastKind × Str)
  flashLoanCalls : Nat
deriving DecidableEq

/-- The initial component state: no bindings, disconnected, no logs,
no timer, not running. -/
def initState : AppState where
  longTradeContract := none
  shortTradeContract := none
  isConnected := false
  isConnecting := false
  logs := []
  executionInterval := none
  isRunning := false
  liveTimers := []
  nextTimerId := 0
  toasts := []
  flashLoanCalls := 0

/-- A state as left by a successful connect: both bindings present
and the session connected (used to instantiate universally
quantified theorems at a concrete connected state). -/
def connectedState : AppState :=
  { initState with
    longTradeContract := some ⟨longTradeAddress⟩
    shortTradeContract := some ⟨shortTradeAddress⟩
    isConnected := true }

/-- The function `addLog` (lines 40–43); the wall-clock timestamp prefix is
abstracted, only the message is recorded. -/
def addLog (st : AppState) (message : Str) : AppState :=
  { st with logs := st.logs ++ [message] }

/-- The notification `toast.error(...)`. -/
def toastError (st : AppState) (message : Str) : AppState :=
  { st with toasts := st.toasts ++ [(ToastKind.error, message)] }

/-- The notification `toast.success(...)`. -/
def toastSuccess (st : AppState) (message : Str) : AppState :=
  { st with toasts := st.toasts ++ [(ToastKind.success, message)] }

/-- The notification `toast.info(...)`. -/
def toastInfo (st : AppState) (message : Str) : AppState :=
  { st with toasts := st.toasts ++ [(ToastKind.info, message)] }

/-- The notification `toast(...)`. -/
def toastPlain (st : AppState) (message : Str) : AppState :=
  { st with toasts := st.toasts ++ [(ToastKind.plain, message)] }

/-! ## Dispatcher -/

/-- The shape of a JavaScript error value as probed by the `catch`
blocks: either not an object (or null), or an object with the
optional fields the code reads (`code`, `reason`, `message`,
`info.error.message`). -/
inductive JsError where
  | nonObject
  | obj (code : Option Int) (reason : Option Str) (message : Option Str)
      (infoErrorMessage : Option Str)
deriving DecidableEq

/-- The test `message.includes(sub)`. -/
def strIncludes (message sub : Str) : Bool :=
  (splitFirst sub message).isSome

/-- The error classification of the `catch` block of
`executeContracts` (lines 189–212), returning the user message. -/
def execErrorMessage (e : JsError) : Str :=
  match e with
  | .nonObject => "Transaction was rejected".data
  | .obj code reason message infoErrorMessage =>
    if code = some 4001 ∨ reason = some "rejected".data then
      "You rejected the transaction".data
    else if (match message with
             | some m => strIncludes m "user denied transaction".data
             | none => false) then
      "You denied the transaction".data
    else
      match infoErrorMessage with
      | some m => sanitizeErrorMessage m
      | none => "Transaction was rejected".data

/-- The outcome of the joined pair of contract calls
(`await Promise.all([tx1, tx2])`): resolves, or rejects with an
error value. -/
inductive ExecOutcome where
  | success
  | failure (e : JsError)
deriving DecidableEq

/-- The state of `executeContracts` while the run is in progress:
after `setIsRunning(true)` and the "Executing contracts..." log
(lines 174–175), before the joined calls settle. -/
def execInProgress (st : AppState) : AppState :=
  addLog { st with isRunning := true } "Executing contracts...".data

/-- The function `executeContracts` (lines 166–219) as a state transformer, given
the outcome of the joined contract calls. The precondition-failure
branch (lines 167–171) returns before any contract call; otherwise
both `initiateFlashLoan` calls are issued (counted in
`flashLoanCalls`), and the `finally` block resets `isRunning` on
every path. -/
def executeContracts (st : AppState) (o : ExecOutcome) : AppState :=
  if st.longTradeContract = none ∨ st.shortTradeContract = none then
    addLog (toastError st "Contracts not initialized. Please connect wallet first.".data)
      "Error: Contracts not initialized".data
  else
    let st1 := execInProgress st
    let st2 := { st1 with flashLoanCalls := st1.flashLoanCalls + 2 }
    let st3 :=
      match o with
      | .success =>
        toastSuccess (addLog st2 "Flash loans initiated successfully!".data)
          "Flash loans initiated successfully on BSC!".data
      | .failure e =>
        let userMessage := execErrorMessage e
        toastError (addLog st2 ("Execution error: ".data ++ userMessage)) userMessage
    { st3 with isRunning := false }

/-! ## Scheduler -/

/-- The guarded `clearInterval(executionInterval)` of
`startIntervalExecution` (lines 223–225): cancel the timer named by
the current handle, if any (the handle variable itself is not
cleared here). -/
def cancelCurrentTimer (st : AppState) : AppState :=
  match st.executionInterval with
  | some t => { st with liveTimers := st.liveTimers.filter (fun tm => tm.id ≠ t) }
  | none => st

/-- The `setInterval(..., 3000)` plus `setExecutionInterval` tail of
`startIntervalExecution` (lines 234–238): arm a fresh repeating
3000 ms timer and store its handle. -/
def armNewTimer (st : AppState) : AppState :=
  { st with
    liveTimers := st.liveTimers ++ [⟨st.nextTimerId, 3000⟩]
    nextTimerId := st.nextTimerId + 1
    executionInterval := some st.nextTimerId }

/-- The function `startIntervalExecution` (lines 222–239): cancel the timer named
by the current handle if any, log, invoke the dispatcher immediately,
then arm a new repeating 3000 ms timer and store its handle. -/
def startIntervalExecution (st : AppState) (o : ExecOutcome) : AppState :=
  armNewTimer
    (executeContracts
      (addLog (cancelCurrentTimer st) "Starting interval execution (every 3 seconds)".data) o)

/-- The function `stopExecution` (lines 242–250): no-op when no timer handle is
held; otherwise clears `isRunning`, cancels the timer, clears the
handle, logs and notifies. -/
def stopExecution (st : AppState) : AppState :=
  match st.executionInterval with
  | none => st
  | some t =>
    toastPlain
      (addLog
        { st with isRunning := false,
                  liveTimers := st.liveTimers.filter (fun tm => tm.id ≠ t),
                  executionInterval := none }
        "Execution stopped".data)
      "Execution stopped".data

/-- The function `runOnce` (lines 253–257). -/
def runOnce (st : AppState) (o : ExecOutcome) : AppState :=
  executeContracts
    (toastPlain (addLog st "Executing contracts once".data) "Executing contracts once".data) o

/-- The function `handleAccountsChanged` (lines 263–271): an empty account list
disconnects the session and clears both bindings; otherwise the
state is untouched. -/
def handleAccountsChanged (st : AppState) (accounts : List Str) : AppState :=
  if accounts.isEmpty then
    toastInfo
      (addLog
        { st with isConnected := false, longTradeContract := none,
                  shortTradeContract := none }
        "Wallet disconnected".data)
      "Wallet disconnected".data
  else st

/-! ## Wallet connect flow -/

/-- Modelled from the spec: `BSC_MAINNET_CONFIG.chainId`, the fixed
target chain id imported from `@/lib/bscConfig` (that module is not
among the provided sources; the Binance Smart Chain mainnet id is
`0x38`). The connect flow uses it only as an equality target. -/
def bscChainId : Str := "0x38".data

/-- A wallet provider RPC error: a numeric `code` and a `message`
(the shape probed at lines 87–104). -/
structure RpcError where
  code : Int
  message : Str
deriving DecidableEq

/-- Outcome of `eth_requestAccounts`: the account list, or a thrown
error. -/
inductive AccountsResult where
  | ok (accounts : List Str)
  | threw (e : JsError)
deriving DecidableEq

/-- The environment of one `connectWallet` run: presence of the
injected provider and the outcomes of each external request the flow
may issue. `switchResult`/`addResult` are `none` when the
corresponding request succeeds. -/
structure ConnectEnv where
  hasEthereum : Bool
  chainId : Str
  switchResult : Option RpcError
  addResult : Option RpcError
  accountsResult : AccountsResult
  signerResult : Option JsError
deriving DecidableEq

/-- How many requests of each kind one `connectWallet` run issued to
the wallet provider. -/
structure ConnectTrace where
  switchRequests : Nat
  addChainRequests : Nat
  accountRequests : Nat
deriving DecidableEq

/-- The error classification of the `catch` block of `connectWallet`
(lines 142–156), returning the user message. -/
def connectErrorMessage (e : JsError) : Str :=
  match e with
  | .nonObject => "Error connecting wallet".data
  | .obj code _reason message _infoErrorMessage =>
    if code = some 4001 then "Connection rejected by user".data
    else if (match message with
             | some m => strIncludes m "user rejected request".data
             | none => false) then
      "Connection rejected by user".data
    else if (match message with
             | some m => strIncludes m "already pending".data
             | none => false) then
      "A request is already pending. Please check MetaMask.".data
    else "Error connecting wallet".data

/-- The `catch` block of `connectWallet` (lines 142–159): classify,
log "Connection error: ...", and surface an error toast. -/
def connectCatch (st : AppState) (e : JsError) : AppState :=
  let errorMessage := connectErrorMessage e
  toastError (addLog st ("Connection error: ".data ++ errorMessage)) errorMessage

/-- The `finally` block of `connectWallet` (lines 160–162). -/
def connectFinally (st : AppState) : AppState :=
  { st with isConnecting := false }

/-- The tail of `connectWallet` after the network guard
(lines 109–141): request accounts, then build the signer and both
contract bindings and mark the session connected; failures fall into
the `catch` block. -/
def connectAccounts (st : AppState) (env : ConnectEnv) (tr : ConnectTrace) :
    AppState × ConnectTrace :=
  let st := addLog st "Requesting accounts...".data
  let tr := { tr with accountRequests := tr.accountRequests + 1 }
  match env.accountsResult with
  | .threw e => (connectFinally (connectCatch st e), tr)
  | .ok accounts =>
    if accounts.isEmpty then
      (connectFinally
        (connectCatch st (.obj none none (some "No accounts found".data) none)), tr)
    else
      let st := addLog st ("Connected account: ".data ++ accounts.headD [])
      match env.signerResult with
      | some e => (connectFinally (connectCatch st e), tr)
      | none =>
        let st :=
          { st with longTradeContract := some ⟨longTradeAddress⟩,
                    shortTradeContract := some ⟨shortTradeAddress⟩,
                    isConnected := true }
        let st := toastSuccess (addLog st "Wallet connected successfully".data)
          "Wallet connected to BSC successfully".data
        (connectFinally st, tr)

/-- The function `connectWallet` (lines 63–163): fail fast without a provider;
otherwise query the chain id and, when it differs from the target,
request a switch — a failure with code 4902 triggers one add-chain
request (whose own failure aborts the flow), any other failure
aborts the flow; then proceed to account acquisition. The trace
counts the switch / add-chain / account requests issued. -/
def connectWallet (st : AppState) (env : ConnectEnv) : AppState × ConnectTrace :=
  if env.hasEthereum = false then
    (toastError st "MetaMask not detected. Please install MetaMask.".data, ⟨0, 0, 0⟩)
  else
    let st := addLog { st with isConnecting := true } "Attempting to connect wallet...".data
    let st := addLog st ("Current chain ID: ".data ++ env.chainId)
    if env.chainId ≠ bscChainId then
      let st := addLog st "Switching to Binance Smart Chain...".data
      match env.switchResult with
      | none =>
        let st := addLog st "Successfully switched to Binance Smart Chain".data
        connectAccounts st env ⟨1, 0, 0⟩
      | some err =>
        if err.code = 4902 then
          let st := addLog st "Adding Binance Smart Chain to MetaMask...".data
          match env.addResult with
          | none =>
            let st := addLog st "Successfully added Binance Smart Chain".data
            connectAccounts st env ⟨1, 1, 0⟩
          | some _ =>
            let st := addLog st "Failed to add Binance Smart Chain".data
            (connectFinally
              (connectCatch st
                (.obj none none
                  (some "Failed to add Binance Smart Chain to MetaMask".data) none)),
              ⟨1, 1, 0⟩)
        else
          let st := addLog st ("Chain switch error: ".data ++ err.message)
          (connectFinally
            (connectCatch st (.obj (some err.code) none (some err.message) none)),
            ⟨1, 0, 0⟩)
    else
      connectAccounts st env ⟨0, 0, 0⟩

/-! ## Operations and reachability -/

/-- One public operation of the component, carrying the outcomes of
the external calls it performs. `timerFire` is a firing of the armed
interval with the given handle (it only runs when that timer is
live). -/
inductive Op where
  | connect (env : ConnectEnv)
  | execute (o : ExecOutcome)
  | start (o : ExecOutcome)
  | stop
  | once (o : ExecOutcome)
  | timerFire (id : Nat) (o : ExecOutcome)
  | accountsChanged (accounts : List Str)

/-- The step function: dispatch one operation on the state. -/
def step (st : AppState) (op : Op) : AppState :=
  match op with
  | .connect env => (connectWallet st env).1
  | .execute o => executeContracts st o
  | .start o => startIntervalExecution st o
  | .stop => stopExecution st
  | .once o => runOnce st o
  | .timerFire id o =>
    if st.liveTimers.any (fun tm => tm.id = id) then executeContracts st o else st
  | .accountsChanged accounts => handleAccountsChanged st accounts

/-- Run a sequence of operations from a state. -/
def runOps (st : AppState) (ops : List Op) : AppState :=
  ops.foldl step st

/-- The timer-table invariant: the `executionInterval` handle names
exactly the live timers — no handle means no live timer, a handle
means exactly one live timer carrying that id. -/
def timerInv (st : AppState) : Bool :=
  match st.executionInterval with
  | none => st.liveTimers.isEmpty
  | some t => st.liveTimers.map Timer.id == [t]

/-- The environment of the C5 counterexample: the provider is
present, the wallet is on a different chain, the switch request
fails with code 4902, and the subsequent add-chain request itself
fails (user rejects it); accounts would be available. -/
def c5AddFailEnv : ConnectEnv where
  hasEthereum := true
  chainId := "0x1".data
  switchResult := some ⟨4902, "Unrecognized chain ID".data⟩
  addResult := some ⟨4001, "User rejected the request".data⟩
  accountsResult := .ok ["0xabc".data]
  signerResult := none

/-- An environment where the 4902 switch failure is followed by a
successful add-chain request. -/
def c5AddOkEnv : ConnectEnv where
  hasEthereum := true
  chainId := "0x1".data
  switchResult := some ⟨4902, "Unrecognized chain ID".data⟩
  addResult := none
  accountsResult := .ok ["0xabc".data]
  signerResult := none

/-! ## Helper lemmas -/

lemma isPrefixOf_self_append (pat rest : Str) : pat.isPrefixOf (pat ++ rest) = true := by
  induction pat with
  | nil => simp [List.isPrefixOf]
  | cons c cs ih => simp [List.isPrefixOf, ih]

/-- A string that starts with the pattern splits at position zero. -/
lemma splitFirst_self_append (pat rest : Str) :
    splitFirst pat (pat ++ rest) = some ([], rest) := by
  rw [splitFirst.eq_def, if_pos (isPrefixOf_self_append pat rest)]
  simp

/-- When no character of `s` is a line terminator, the trailing
greedy `(.*)` captures all of `s`. -/
lemma lineSpan_no_term (s : Str) (h : ∀ c ∈ s, isLineTerm c = false) :
    lineSpan s = (s, []) := by
  unfold lineSpan
  rw [List.takeWhile_eq_self_iff.mpr (by simpa using h),
    List.dropWhile_eq_nil_iff.mpr (by simpa using h)]

/-- The dispatcher never touches the timer table, the timer handle,
or the timer-id supply. -/
lemma executeContracts_frame (st : AppState) (o : ExecOutcome) :
    (executeContracts st o).executionInterval = st.executionInterval ∧
    (executeContracts st o).liveTimers = st.liveTimers ∧
    (executeContracts st o).nextTimerId = st.nextTimerId := by
  cases o <;>
    simp [executeContracts, execInProgress, addLog, toastError, toastSuccess] <;>
    split <;> simp

/-- The function `runOnce` never touches the timer table, the timer handle, or
the timer-id supply. -/
lemma runOnce_frame (st : AppState) (o : ExecOutcome) :
    (runOnce st o).executionInterval = st.executionInterval ∧
    (runOnce st o).liveTimers = st.liveTimers ∧
    (runOnce st o).nextTimerId = st.nextTimerId := by
  have h := executeContracts_frame
    (toastPlain (addLog st "Executing contracts once".data) "Executing contracts once".data) o
  simpa [runOnce, addLog, toastPlain] using h

/-- The accounts-changed handler never touches the timer table, the
timer handle, or the timer-id supply. -/
lemma handleAccountsChanged_frame (st : AppState) (accounts : List Str) :
    (handleAccountsChanged st accounts).executionInterval = st.executionInterval ∧
    (handleAccountsChanged st accounts).liveTimers = st.liveTimers ∧
    (handleAccountsChanged st accounts).nextTimerId = st.nextTimerId := by
  simp [handleAccountsChanged, addLog, toastInfo]
  split <;> simp

/-- The connect flow never touches the timer table, the timer
handle, or the timer-id supply. -/
lemma connectWallet_frame (st : AppState) (env : ConnectEnv) :
    (connectWallet st env).1.executionInterval = st.executionInterval ∧
    (connectWallet st env).1.liveTimers = st.liveTimers ∧
    (connectWallet st env).1.nextTimerId = st.nextTimerId := by
  obtain ⟨hE, cid, sw, ad, ac, sg⟩ := env
  cases hE <;> cases sw <;> cases ad <;> cases ac <;> cases sg <;>
    simp [connectWallet, connectAccounts, connectCatch, connectFinally,
      addLog, toastError, toastSuccess] <;>
    split_ifs <;> simp

/-- A timer list whose ids are exactly `[t]` is emptied by
cancelling `t`. -/
lemma filter_of_map_id_singleton (l : List Timer) (t : Nat)
    (h : l.map Timer.id = [t]) : l.filter (fun tm => tm.id ≠ t) = [] := by
  match l with
  | [] => simp at h
  | [tm] =>
    simp at h
    simp [List.filter, h]
  | a :: b :: rest => simp at h

/-- The invariant depends only on the handle and the timer table. -/
lemma timerInv_congr (st st' : AppState)
    (h1 : st'.executionInterval = st.executionInterval)
    (h2 : st'.liveTimers = st.liveTimers) (h : timerInv st = true) :
    timerInv st' = true := by
  unfold timerInv at *
  rw [h1, h2]
  exact h

/-- Under the invariant, cancelling the timer named by the handle
empties the timer table. -/
lemma cancelCurrentTimer_empty (st : AppState) (h : timerInv st = true) :
    (cancelCurrentTimer st).liveTimers = [] := by
  unfold timerInv at h
  unfold cancelCurrentTimer
  cases hei : st.executionInterval with
  | none => rw [hei] at h; simpa using h
  | some t =>
    rw [hei] at h
    simp only
    exact filter_of_map_id_singleton _ t (by simpa using h)

/-- Cancelling does not touch the handle or the id supply. -/
lemma cancelCurrentTimer_frame (st : AppState) :
    (cancelCurrentTimer st).executionInterval = st.executionInterval ∧
    (cancelCurrentTimer st).nextTimerId = st.nextTimerId := by
  unfold cancelCurrentTimer
  cases hei : st.executionInterval <;> simp [hei]

/-- Under the invariant, `start` leaves exactly one live timer — the
newly armed 3000 ms interval — and stores its handle. -/
lemma startIntervalExecution_timers (st : AppState) (o : ExecOutcome)
    (h : timerInv st = true) :
    ∃ n, (startIntervalExecution st o).executionInterval = some n ∧
      (startIntervalExecution st o).liveTimers = [⟨n, 3000⟩] := by
  have hf := executeContracts_frame
    (addLog (cancelCurrentTimer st) "Starting interval execution (every 3 seconds)".data) o
  have hlt :
      (executeContracts
        (addLog (cancelCurrentTimer st)
          "Starting interval execution (every 3 seconds)".data) o).liveTimers = [] := by
    rw [hf.2.1]
    show (cancelCurrentTimer st).liveTimers = []
    exact cancelCurrentTimer_empty st h
  refine ⟨_, rfl, ?_⟩
  show (executeContracts
      (addLog (cancelCurrentTimer st)
        "Starting interval execution (every 3 seconds)".data) o).liveTimers ++ _ = _
  rw [hlt]
  rfl

/-- Operation `start` re-establishes the invariant. -/
lemma startIntervalExecution_timerInv (st : AppState) (o : ExecOutcome)
    (h : timerInv st = true) :
    timerInv (startIntervalExecution st o) = true := by
  obtain ⟨n, h1, h2⟩ := startIntervalExecution_timers st o h
  unfold timerInv
  rw [h1, h2]
  simp

/-- Operation `stop` re-establishes the invariant. -/
lemma stopExecution_timerInv (st : AppState) (h : timerInv st = true) :
    timerInv (stopExecution st) = true := by
  unfold stopExecution
  cases hei : st.executionInterval with
  | none => simp only [hei]; exact h
  | some t =>
    simp only [hei]
    unfold timerInv at h
    rw [hei] at h
    have hmap : st.liveTimers.map Timer.id = [t] := by simpa using h
    unfold timerInv addLog toastPlain
    simp only
    rw [filter_of_map_id_singleton st.liveTimers t hmap]
    rfl

/-- Every public operation preserves the timer-table invariant. -/
lemma timerInv_step (st : AppState) (op : Op) (h : timerInv st = true) :
    timerInv (step st op) = true := by
  cases op with
  | connect env =>
    have hf := connectWallet_frame st env
    exact timerInv_congr st _ hf.1 hf.2.1 h
  | execute o =>
    have hf := executeContracts_frame st o
    exact timerInv_congr st _ hf.1 hf.2.1 h
  | start o => exact startIntervalExecution_timerInv st o h
  | stop => exact stopExecution_timerInv st h
  | once o =>
    have hf := runOnce_frame st o
    exact timerInv_congr st _ hf.1 hf.2.1 h
  | timerFire id o =>
    simp only [step]
    split
    · have hf := executeContracts_frame st o
      exact timerInv_congr st _ hf.1 hf.2.1 h
    · exact h
  | accountsChanged accounts =>
    have hf := handleAccountsChanged_frame st accounts
    exact timerInv_congr st _ hf.1 hf.2.1 h

/-- The invariant holds along every run. -/
lemma timerInv_runOps (ops : List Op) (st : AppState) (h : timerInv st = true) :
    timerInv (runOps st ops) = true := by
  induction ops generalizing st with
  | nil => exact h
  | cons op rest ih => exact ih (step st op) (timerInv_step st op h)

/-- Under the invariant, at most one timer is live. -/
lemma timerInv_length (st : AppState) (h : timerInv st = true) :
    st.liveTimers.length ≤ 1 := by
  unfold timerInv at h
  cases hei : st.executionInterval with
  | none =>
    rw [hei] at h
    simp [List.isEmpty_iff.mp (by simpa using h)]
  | some t =>
    rw [hei] at h
    have : st.liveTimers.map Timer.id = [t] := by simpa using h
    have hlen := congrArg List.length this
    simp at hlen
    simp [hlen]

lemma getLast?_snoc {α : Type} (l : List α) (x : α) : (l ++ [x]).getLast? = some x := by
  rw [List.getLast?_append_cons]
  rfl

/-- When either binding is absent, `executeContracts` reduces to the
early-return branch: one error toast and one error log entry. -/
lemma executeContracts_noinit (st : AppState) (o : ExecOutcome)
    (h : st.longTradeContract = none ∨ st.shortTradeContract = none) :
    executeContracts st o =
      addLog (toastError st "Contracts not initialized. Please connect wallet first.".data)
        "Error: Contracts not initialized".data := by
  unfold executeContracts
  rw [if_pos h]

/-! ## The claims -/

/-- C4: Sanitizer test vectors — "execution reverted: insufficient
funds" maps to "Transaction failed: insufficient funds";
"ethers-user-denied: foo" maps to "Action cancelled"; the unmatched
input "some unrelated provider noise" maps to the fixed fallback
"Transaction failed". -/
theorem C4_sanitizer_vectors :
    sanitizeErrorMessage "execution reverted: insufficient funds".data
        = "Transaction failed: insufficient funds".data ∧
    sanitizeErrorMessage "ethers-user-denied: foo".data = "Action cancelled".data ∧
    sanitizeErrorMessage "some unrelated provider noise".data
        = "Transaction failed".data := by
  decide

/-- C2 (counterexample): the message "x ethers-user-denied: foo"
contains the user-denied marker and does not match the earlier
signature-prefix rule, yet `sanitizeErrorMessage` returns
"x Action cancelled" — not exactly "Action cancelled": the text
before the marker survives, because `String.replace` rewrites only
the matched portion. -/
theorem C2_counterexample :
    regexTest "ethers-user-denied: ".data "x ethers-user-denied: foo".data = true ∧
    regexTest "MetaMask Tx Signature: ".data "x ethers-user-denied: foo".data = false ∧
    sanitizeErrorMessage "x ethers-user-denied: foo".data = "x Action cancelled".data ∧
    sanitizeErrorMessage "x ethers-user-denied: foo".data ≠ "Action cancelled".data := by
  decide

/-- C2 (amended): for every raw message that BEGINS WITH the marker
"ethers-user-denied: ", contains no line terminators, and does not
match the earlier signature-prefix rule, `sanitizeErrorMessage`
returns exactly the fixed string "Action cancelled". (A message with
text before the marker keeps that prefix text in the output, and
text after a line terminator also survives.) -/
theorem C2_user_denied_fixed_string (tail : Str)
    (hsig : regexTest "MetaMask Tx Signature: ".data
        ("ethers-user-denied: ".data ++ tail) = false)
    (hterm : ∀ c ∈ tail, isLineTerm c = false) :
    sanitizeErrorMessage ("ethers-user-denied: ".data ++ tail)
      = "Action cancelled".data := by
  have h2 := splitFirst_self_append "ethers-user-denied: ".data tail
  simp only [sanitizeErrorMessage, sanitizePatterns, sanitizeLoop, hsig,
    Bool.false_eq_true, if_false]
  rw [regexTest, h2]
  simp only [Option.isSome_some, if_true]
  rw [regexReplace, h2]
  simp [lineSpan_no_term tail hterm]

/-- C2 (witness for the amended theorem). -/
theorem C2_user_denied_fixed_string_witness :
    regexTest "MetaMask Tx Signature: ".data "ethers-user-denied: foo".data = false ∧
    (∀ c ∈ "foo".data, isLineTerm c = false) ∧
    sanitizeErrorMessage "ethers-user-denied: foo".data = "Action cancelled".data :=
  ⟨by decide, by decide, C2_user_denied_fixed_string "foo".data (by decide) (by decide)⟩

/-- C3: with either binding absent, `executeContracts` appends the
"contracts not initialized" error log entry, surfaces the error
toast, never invokes `initiateFlashLoan`, and leaves `isRunning`,
the timer handle and the timer table unchanged. -/
theorem C3_noinit_no_side_effects (st : AppState) (o : ExecOutcome)
    (h : st.longTradeContract = none ∨ st.shortTradeContract = none) :
    (executeContracts st o).logs = st.logs ++ ["Error: Contracts not initialized".data] ∧
    (executeContracts st o).toasts = st.toasts ++
      [(ToastKind.error, "Contracts not initialized. Please connect wallet first.".data)] ∧
    (executeContracts st o).flashLoanCalls = st.flashLoanCalls ∧
    (executeContracts st o).isRunning = st.isRunning ∧
    (executeContracts st o).executionInterval = st.executionInterval ∧
    (executeContracts st o).liveTimers = st.liveTimers := by
  rw [executeContracts_noinit st o h]
  simp [addLog, toastError]

/-- C3 (witness). -/
theorem C3_noinit_no_side_effects_witness :
    (initState.longTradeContract = none ∨ initState.shortTradeContract = none) ∧
    (executeContracts initState ExecOutcome.success).flashLoanCalls
      = initState.flashLoanCalls :=
  ⟨Or.inl rfl, (C3_noinit_no_side_effects initState ExecOutcome.success (Or.inl rfl)).2.2.1⟩

/-- C7: when both bindings are present, `isRunning` is true in the
in-progress state of the run (after `setIsRunning(true)`), and is
false again when `executeContracts` completes — for the success
outcome and for every failure outcome alike (the `finally` block). -/
theorem C7_running_reset_every_path (st : AppState) (o : ExecOutcome)
    (hl : st.longTradeContract ≠ none) (hs : st.shortTradeContract ≠ none) :
    (execInProgress st).isRunning = true ∧
    (executeContracts st o).isRunning = false := by
  constructor
  · rfl
  · unfold executeContracts
    rw [if_neg (not_or.mpr ⟨hl, hs⟩)]

/-- C7 (witness). -/
theorem C7_running_reset_every_path_witness :
    connectedState.longTradeContract ≠ none ∧
    connectedState.shortTradeContract ≠ none ∧
    ((execInProgress connectedState).isRunning = true ∧
     (executeContracts connectedState
        (ExecOutcome.failure JsError.nonObject)).isRunning = false) :=
  ⟨by decide, by decide,
   C7_running_reset_every_path connectedState (ExecOutcome.failure JsError.nonObject)
     (by decide) (by decide)⟩

/-- Operation `stop` with no handle held returns the state unchanged. -/
lemma stopExecution_handle_none (st : AppState) (h : st.executionInterval = none) :
    stopExecution st = st := by
  unfold stopExecution
  rw [h]

/-- Operation `stop` with a handle held clears the handle. -/
lemma stopExecution_clears_handle (st : AppState) (t : Nat)
    (h : st.executionInterval = some t) :
    (stopExecution st).executionInterval = none := by
  unfold stopExecution
  rw [h]
  rfl

/-- C8: `stopExecution` is a no-op when no timer handle is held —
the state (handle, running flag, log, toasts, timer table) is
returned unchanged, and as a total function it never throws — and a
second `stopExecution` immediately after a first one always changes
nothing. -/
theorem C8_stop_noop_idempotent (st : AppState) :
    (st.executionInterval = none → stopExecution st = st) ∧
    stopExecution (stopExecution st) = stopExecution st := by
  constructor
  · exact stopExecution_handle_none st
  · cases hei : st.executionInterval with
    | none =>
      rw [stopExecution_handle_none st hei, stopExecution_handle_none st hei]
    | some t =>
      exact stopExecution_handle_none _ (stopExecution_clears_handle st t hei)

/-- C8 (witness). -/
theorem C8_stop_noop_idempotent_witness :
    initState.executionInterval = none ∧
    stopExecution initState = initState ∧
    stopExecution (stopExecution initState) = stopExecution initState :=
  ⟨rfl, (C8_stop_noop_idempotent initState).1 rfl, (C8_stop_noop_idempotent initState).2⟩

/-- C9: while connected, an accounts-changed notification with an
empty account list disconnects the session and clears both bindings,
appending exactly one log entry and one toast; a non-empty account
list leaves the state entirely unchanged. -/
theorem C9_accounts_changed (st : AppState) (accounts : List Str)
    (hc : st.isConnected = true) :
    (accounts = [] →
      (handleAccountsChanged st accounts).isConnected = false ∧
      (handleAccountsChanged st accounts).longTradeContract = none ∧
      (handleAccountsChanged st accounts).shortTradeContract = none ∧
      (handleAccountsChanged st accounts).logs = st.logs ++ ["Wallet disconnected".data] ∧
      (handleAccountsChanged st accounts).toasts
        = st.toasts ++ [(ToastKind.info, "Wallet disconnected".data)]) ∧
    (accounts ≠ [] → handleAccountsChanged st accounts = st) := by
  constructor
  · intro h
    subst h
    simp [handleAccountsChanged, addLog, toastInfo]
  · intro h
    unfold handleAccountsChanged
    rw [if_neg (by simpa using h)]

/-- C9 (witness). -/
theorem C9_accounts_changed_witness :
    connectedState.isConnected = true ∧
    ((handleAccountsChanged connectedState []).isConnected = false ∧
     (handleAccountsChanged connectedState []).longTradeContract = none ∧
     (handleAccountsChanged connectedState []).shortTradeContract = none) ∧
    handleAccountsChanged connectedState ["0xabc".data] = connectedState :=
  ⟨rfl,
   ⟨((C9_accounts_changed connectedState [] rfl).1 rfl).1,
    ((C9_accounts_changed connectedState [] rfl).1 rfl).2.1,
    ((C9_accounts_changed connectedState [] rfl).1 rfl).2.2.1⟩,
   (C9_accounts_changed connectedState ["0xabc".data] rfl).2 (by decide)⟩

/-- C1 (counterexample): the state reached from the initial state by
the single operation `start` (with both bindings absent) has the
timer handle present while `running` is false — refuting "the timer
handle is present only while running is true". -/
theorem C1_counterexample :
    (runOps initState [Op.start ExecOutcome.success]).executionInterval.isSome = true ∧
    (runOps initState [Op.start ExecOutcome.success]).isRunning = false := by
  decide

/-- C1 (amended): in every state reachable by any sequence of the
public operations from the initial state, at most one live timer
exists, and the timer handle names exactly the live timer when
present (no handle, no live timer). The half of the original claim
coupling the timer to `running` is dropped: the handle may be
present while `running` is false, since `start` arms the timer
without setting `running`. -/
theorem C1_at_most_one_timer_reachable (ops : List Op) :
    timerInv (runOps initState ops) = true ∧
    (runOps initState ops).liveTimers.length ≤ 1 := by
  have h := timerInv_runOps ops initState (by decide)
  exact ⟨h, timerInv_length _ h⟩

/-- C6: after any prefix of any finite operation sequence (in
particular any sequence of `start` calls interleaved with other
operations) at most one live timer exists; and a `start` appended to
any run leaves exactly one live timer — the freshly armed 3000 ms
interval (the existing timer having been cancelled first). -/
theorem C6_start_at_most_one_timer (ops pre : List Op) (o : ExecOutcome)
    (h : ∃ rest, pre ++ rest = ops) :
    (runOps initState pre).liveTimers.length ≤ 1 ∧
    (runOps initState (pre ++ [Op.start o])).liveTimers.map Timer.periodMs = [3000] := by
  have hinv := timerInv_runOps pre initState (by decide)
  constructor
  · exact timerInv_length _ hinv
  · obtain ⟨n, h1, h2⟩ := startIntervalExecution_timers (runOps initState pre) o hinv
    have hstep : runOps initState (pre ++ [Op.start o])
        = startIntervalExecution (runOps initState pre) o := by
      simp [runOps, List.foldl_append, step]
    rw [hstep, h2]
    rfl

/-- C6 (witness). -/
theorem C6_start_at_most_one_timer_witness :
    (∃ rest, [Op.stop] ++ rest = [Op.stop, Op.stop]) ∧
    ((runOps initState [Op.stop]).liveTimers.length ≤ 1 ∧
     (runOps initState ([Op.stop] ++ [Op.start ExecOutcome.success])).liveTimers.map
       Timer.periodMs = [3000]) :=
  ⟨⟨[Op.stop], rfl⟩,
   C6_start_at_most_one_timer [Op.stop, Op.stop] [Op.stop] ExecOutcome.success
     ⟨[Op.stop], rfl⟩⟩

/-- Cancelling the current timer does not touch the bindings or the
running flag. -/
lemma cancelCurrentTimer_bindings (st : AppState) :
    (cancelCurrentTimer st).longTradeContract = st.longTradeContract ∧
    (cancelCurrentTimer st).shortTradeContract = st.shortTradeContract ∧
    (cancelCurrentTimer st).isRunning = st.isRunning := by
  unfold cancelCurrentTimer
  cases hei : st.executionInterval <;> simp [hei]

/-- C10: `start` itself never sets `running` — the timer-arming steps
preserve whatever the immediate dispatcher run leaves in `running`;
with both bindings absent, `start` leaves `running` unchanged yet
still arms the repeating timer; the state with the timer handle
present and `running` false is reachable (initial state, one
`start`); and in a bindings-absent state every timer firing takes
the precondition-failure path, touching neither `running` nor the
timer handle nor the timer table — so `running` stays false forever
there. -/
theorem C10_start_arms_timer_without_running (st : AppState) (id : Nat) (o : ExecOutcome)
    (h : st.longTradeContract = none ∨ st.shortTradeContract = none) :
    ((startIntervalExecution st o).isRunning = st.isRunning ∧
     (startIntervalExecution st o).executionInterval.isSome = true) ∧
    ((runOps initState [Op.start ExecOutcome.success]).executionInterval.isSome = true ∧
     (runOps initState [Op.start ExecOutcome.success]).isRunning = false) ∧
    ((step st (Op.timerFire id o)).isRunning = st.isRunning ∧
     (step st (Op.timerFire id o)).executionInterval = st.executionInterval ∧
     (step st (Op.timerFire id o)).liveTimers = st.liveTimers) := by
  have hb := cancelCurrentTimer_bindings st
  have h2 :
      (addLog (cancelCurrentTimer st)
        "Starting interval execution (every 3 seconds)".data).longTradeContract = none ∨
      (addLog (cancelCurrentTimer st)
        "Starting interval execution (every 3 seconds)".data).shortTradeContract = none := by
    cases h with
    | inl hl => exact Or.inl (by rw [show (addLog (cancelCurrentTimer st)
        "Starting interval execution (every 3 seconds)".data).longTradeContract
        = (cancelCurrentTimer st).longTradeContract from rfl, hb.1, hl])
    | inr hr => exact Or.inr (by rw [show (addLog (cancelCurrentTimer st)
        "Starting interval execution (every 3 seconds)".data).shortTradeContract
        = (cancelCurrentTimer st).shortTradeContract from rfl, hb.2.1, hr])
  refine ⟨⟨?_, ?_⟩, by decide, ?_⟩
  · unfold startIntervalExecution
    rw [executeContracts_noinit _ o h2]
    show (cancelCurrentTimer st).isRunning = st.isRunning
    exact hb.2.2
  · unfold startIntervalExecution armNewTimer
    rfl
  · simp only [step]
    split
    · rw [executeContracts_noinit st o h]
      exact ⟨rfl, rfl, rfl⟩
    · exact ⟨rfl, rfl, rfl⟩

/-- C10 (witness). -/
theorem C10_start_arms_timer_without_running_witness :
    (initState.longTradeContract = none ∨ initState.shortTradeContract = none) ∧
    ((startIntervalExecution initState ExecOutcome.success).isRunning
       = initState.isRunning ∧
     (startIntervalExecution initState
        ExecOutcome.success).executionInterval.isSome = true) :=
  ⟨Or.inl rfl,
   (C10_start_arms_timer_without_running initState 0 ExecOutcome.success (Or.inl rfl)).1⟩

/-- One run of the account-acquisition tail issues exactly one
account request, whatever its outcome. -/
lemma connectAccounts_trace (st : AppState) (env : ConnectEnv) (tr : ConnectTrace) :
    (connectAccounts st env tr).2
      = { tr with accountRequests := tr.accountRequests + 1 } := by
  unfold connectAccounts
  cases hac : env.accountsResult with
  | threw e => rfl
  | ok accounts =>
    cases accounts with
    | nil => rfl
    | cons a rest => cases hsg : env.signerResult <;> rfl

/-- The abort path of the connect flow surfaces the classified error
as the last toast and the last log entry, and leaves the session
fields unchanged. -/
lemma connectCatch_last (st : AppState) (e : JsError) :
    (connectFinally (connectCatch st e)).toasts.getLast?
      = some (ToastKind.error, connectErrorMessage e) ∧
    (connectFinally (connectCatch st e)).logs.getLast?
      = some ("Connection error: ".data ++ connectErrorMessage e) ∧
    (connectFinally (connectCatch st e)).isConnected = st.isConnected := by
  unfold connectFinally connectCatch toastError addLog
  exact ⟨getLast?_snoc _ _, getLast?_snoc _ _, rfl⟩

/-- C5 (counterexample): when the chain switch fails with code 4902
and the add-chain request then fails, exactly one add-chain request
is issued but the connect flow does NOT continue — the account
request is never made and the session stays disconnected — refuting
the unconditional "the connect flow then continues". -/
theorem C5_counterexample :
    (connectWallet initState c5AddFailEnv).2.addChainRequests = 1 ∧
    (connectWallet initState c5AddFailEnv).2.accountRequests = 0 ∧
    (connectWallet initState c5AddFailEnv).1.isConnected = false := by
  decide

/-- C5 (amended): when the chain-switch request fails with code
4902, exactly one add-chain request is issued; if that add-chain
request succeeds the connect flow continues (the account request is
issued); if the add-chain request itself fails the flow aborts with
a classified error message surfaced as the last toast, the session
flag untouched. When the switch fails with any other code, no
add-chain request is issued and the flow aborts with that error
classified and surfaced as the last toast and last log entry. -/
theorem C5_network_guard_amended (st : AppState) (env : ConnectEnv) (err : RpcError)
    (hE : env.hasEthereum = true) (hC : env.chainId ≠ bscChainId)
    (hS : env.switchResult = some err) :
    (err.code = 4902 → (connectWallet st env).2.addChainRequests = 1) ∧
    (err.code = 4902 → env.addResult = none →
      (connectWallet st env).2.accountRequests = 1) ∧
    (err.code = 4902 → env.addResult ≠ none →
      (connectWallet st env).2.accountRequests = 0 ∧
      (connectWallet st env).1.isConnected = st.isConnected ∧
      (connectWallet st env).1.toasts.getLast?
        = some (ToastKind.error, "Error connecting wallet".data)) ∧
    (err.code ≠ 4902 →
      (connectWallet st env).2.addChainRequests = 0 ∧
      (connectWallet st env).2.accountRequests = 0 ∧
      (connectWallet st env).1.isConnected = st.isConnected ∧
      (connectWallet st env).1.toasts.getLast? = some (ToastKind.error,
        connectErrorMessage (JsError.obj (some err.code) none (some err.message) none)) ∧
      (connectWallet st env).1.logs.getLast? = some ("Connection error: ".data ++
        connectErrorMessage (JsError.obj (some err.code) none (some err.message) none))) := by
  unfold connectWallet
  rw [hE, hS, if_neg (show ¬(true = false) by decide), if_pos hC]
  dsimp only
  refine ⟨?_, ?_, ?_, ?_⟩
  · intro h4
    rw [if_pos h4]
    cases had : env.addResult with
    | none =>
      dsimp only
      rw [connectAccounts_trace]
    | some e2 => rfl
  · intro h4 hN
    rw [if_pos h4, hN]
    dsimp only
    rw [connectAccounts_trace]
  · intro h4 hne
    rw [if_pos h4]
    obtain ⟨e2, he2⟩ : ∃ e2, env.addResult = some e2 := by
      cases h' : env.addResult with
      | none => exact absurd h' hne
      | some x => exact ⟨x, rfl⟩
    rw [he2]
    dsimp only
    have hmsg : connectErrorMessage (JsError.obj none none
        (some "Failed to add Binance Smart Chain to MetaMask".data) none)
        = "Error connecting wallet".data := by decide
    refine ⟨rfl, ?_, ?_⟩
    · exact (connectCatch_last _ _).2.2
    · have h1 := connectCatch_last
        (addLog (addLog (addLog (addLog (addLog { st with isConnecting := true }
          "Attempting to connect wallet...".data)
          ("Current chain ID: ".data ++ env.chainId))
          "Switching to Binance Smart Chain...".data)
          "Adding Binance Smart Chain to MetaMask...".data)
          "Failed to add Binance Smart Chain".data)
        (JsError.obj none none
          (some "Failed to add Binance Smart Chain to MetaMask".data) none)
      rw [hmsg] at h1
      exact h1.1
  · intro hne
    rw [if_neg hne]
    refine ⟨rfl, rfl, ?_, ?_, ?_⟩
    · exact (connectCatch_last _ _).2.2
    · exact (connectCatch_last _ _).1
    · exact (connectCatch_last _ _).2.1

/-- C5 (witness for the amended theorem, on the successful add-chain
path). -/
theorem C5_network_guard_amended_witness :
    c5AddOkEnv.hasEthereum = true ∧
    c5AddOkEnv.chainId ≠ bscChainId ∧
    c5AddOkEnv.switchResult = some ⟨4902, "Unrecognized chain ID".data⟩ ∧
    ((connectWallet initState c5AddOkEnv).2.addChainRequests = 1 ∧
     (connectWallet initState c5AddOkEnv).2.accountRequests = 1) :=
  ⟨rfl, by decide, rfl,
   (C5_network_guard_amended initState c5AddOkEnv ⟨4902, "Unrecognized chain ID".data⟩
      rfl (by decide) rfl).1 rfl,
   (C5_network_guard_amended initState c5AddOkEnv ⟨4902, "Unrecognized chain ID".data⟩
      rfl (by decide) rfl).2.1 rfl rfl⟩

end FlashLoan
